import Mathlib

/-!
Shallow embedding of the mate-panel "Action Button" module
(panel-action-button.c) and the stock-icon registrar (panel-stock-icons.c),
with theorems checking the natural-language specification against the code.

External collaborators (lockdown policy, session manager, display backend,
screensaver capability probe) are modelled as a read-only environment record;
GTK widget state touched by the module is modelled as explicit fields of a
button-state record, together with a trace of UI side effects.
-/

set_option maxHeartbeats 1000000

namespace MatePanel

/-- Environment of external collaborators queried by the action-button code:
lockdown-policy booleans, screensaver capability probe, session manager,
and the display backend (compile-time HAVE_WAYLAND flag plus the runtime
GDK_IS_WAYLAND_DISPLAY test). -/
structure Env where
  disableLockScreen : Bool
  disableLogOut : Bool
  disableCommandLine : Bool
  disableForceQuit : Bool
  lockedDown : Bool
  lockScreenActionAvailable : String → Bool
  shutdownAvailable : Bool
  haveWayland : Bool
  isWaylandDisplay : Bool

/-- Enum value PANEL_ACTION_NONE of PanelActionButtonType. -/
def PANEL_ACTION_NONE : Nat := 0
/-- Enum value PANEL_ACTION_LOCK. -/
def PANEL_ACTION_LOCK : Nat := 1
/-- Enum value PANEL_ACTION_LOGOUT. -/
def PANEL_ACTION_LOGOUT : Nat := 2
/-- Enum value PANEL_ACTION_RUN. -/
def PANEL_ACTION_RUN : Nat := 3
/-- Enum value PANEL_ACTION_SEARCH. -/
def PANEL_ACTION_SEARCH : Nat := 4
/-- Enum value PANEL_ACTION_FORCE_QUIT. -/
def PANEL_ACTION_FORCE_QUIT : Nat := 5
/-- Enum value PANEL_ACTION_CONNECT_SERVER. -/
def PANEL_ACTION_CONNECT_SERVER : Nat := 6
/-- Enum value PANEL_ACTION_SHUTDOWN. -/
def PANEL_ACTION_SHUTDOWN : Nat := 7
/-- Enum value PANEL_ACTION_LAST (count of kinds). -/
def PANEL_ACTION_LAST : Nat := 8

/-- The static panel_action_type name table, indexed by the enum value. -/
def panel_action_type : List String :=
  ["none", "lock", "logout", "run", "search", "force-quit",
   "connect-server", "shutdown"]

/-- The C helper get_action_type_name: table lookup guarded by the range
check, NULL (here none) when out of range. -/
def get_action_type_name (id : Nat) : Option String :=
  if id < PANEL_ACTION_LAST then some (panel_action_type.getD id "") else none

/-- ASCII lower-casing as done by g_ascii_tolower. -/
def g_ascii_tolower (c : Char) : Char :=
  if 'A' ≤ c ∧ c ≤ 'Z' then Char.ofNat (c.toNat + 32) else c

/-- Equality test corresponding to g_ascii_strcasecmp (...) == 0. -/
def ascii_strcasecmp_eq (a b : String) : Bool :=
  a.data.map g_ascii_tolower == b.data.map g_ascii_tolower

/-- The C helper get_action_type_id: scan the name table in index order with
a case-insensitive comparison; on a hit report (TRUE, index), otherwise
write 0 to the out-parameter and report FALSE. -/
def get_action_type_id (name : String) : Bool × Nat :=
  match (List.range PANEL_ACTION_LAST).find?
      (fun i => ascii_strcasecmp_eq (panel_action_type.getD i "") name) with
  | some i => (true, i)
  | none => (false, 0)

/-- The C helper screensaver_enabled: FALSE when lockdown disables the lock
screen, else the result of probing the "lock" screensaver action. -/
def screensaver_enabled (e : Env) : Bool :=
  if e.disableLockScreen then false
  else e.lockScreenActionAvailable "lock"

/-- The C helper panel_action_lock_is_disabled. -/
def panel_action_lock_is_disabled (e : Env) : Bool :=
  !screensaver_enabled e

/-- The C helper panel_action_shutdown_reboot_is_disabled: TRUE when lockdown
disables log-out; otherwise (only in a HAVE_WAYLAND build) FALSE on a Wayland
display; otherwise TRUE exactly when the session manager reports shutdown
unavailable. -/
def panel_action_shutdown_reboot_is_disabled (e : Env) : Bool :=
  if e.disableLogOut then true
  else if e.haveWayland && (!e.disableLogOut) && e.isWaylandDisplay then false
  else !e.shutdownAvailable

/-- Modelled from the spec: icon identifier PANEL_ICON_LOCKSCREEN from
panel-icon-names.h, a header absent from the sources; an opaque icon token
whose concrete value the claims never depend on. -/
def PANEL_ICON_LOCKSCREEN : String := "panel-icon-lockscreen"

/-- Modelled from the spec: icon identifier PANEL_ICON_LOGOUT (header absent
from the sources), opaque token. -/
def PANEL_ICON_LOGOUT : String := "panel-icon-logout"

/-- Modelled from the spec: icon identifier PANEL_ICON_RUN (header absent
from the sources), opaque token. -/
def PANEL_ICON_RUN : String := "panel-icon-run"

/-- Modelled from the spec: icon identifier PANEL_ICON_SEARCHTOOL (header
absent from the sources), opaque token. -/
def PANEL_ICON_SEARCHTOOL : String := "panel-icon-searchtool"

/-- Modelled from the spec: icon identifier PANEL_ICON_FORCE_QUIT (header
absent from the sources), opaque token. -/
def PANEL_ICON_FORCE_QUIT : String := "panel-icon-force-quit"

/-- Modelled from the spec: icon identifier PANEL_ICON_REMOTE (header absent
from the sources), opaque token. -/
def PANEL_ICON_REMOTE : String := "panel-icon-remote"

/-- Modelled from the spec: icon identifier PANEL_ICON_SHUTDOWN (header
absent from the sources), opaque token. -/
def PANEL_ICON_SHUTDOWN : String := "panel-icon-shutdown"

/-- One row of the static PanelAction dispatch table: metadata strings plus
the four optional capability hooks.  The invoke / setup_menu / invoke_menu
function pointers only matter to the claims through their presence, so they
are modelled as booleans; is_disabled is modelled as an optional predicate
over the environment. -/
structure PanelAction where
  icon_name : Option String
  text : Option String
  tooltip : Option String
  help_index : Option String
  drag_id : Option String
  has_invoke : Bool
  has_setup_menu : Bool
  has_invoke_menu : Bool
  is_disabled : Option (Env → Bool)

/-- The static actions table, indexed by the PanelActionButtonType enum
value, in the order of the source file.  Out-of-range indices map to the
all-NULL PANEL_ACTION_NONE row (the C code never indexes out of range: every
access is guarded by a range check). -/
def actions (i : Nat) : PanelAction :=
  match i with
  | 1 => { icon_name := some PANEL_ICON_LOCKSCREEN,
           text := some "Lock Screen",
           tooltip := some "Protect your computer from unauthorized use",
           help_index := some "gospanel-21",
           drag_id := some "ACTION:lock:NEW",
           has_invoke := true, has_setup_menu := true, has_invoke_menu := true,
           is_disabled := some panel_action_lock_is_disabled }
  | 2 => { icon_name := some PANEL_ICON_LOGOUT,
           text := some "Log Out...",
           tooltip := some "Log out of this session to log in as a different user",
           help_index := some "gospanel-20",
           drag_id := some "ACTION:logout:NEW",
           has_invoke := true, has_setup_menu := false, has_invoke_menu := false,
           is_disabled := some (fun e => e.disableLogOut) }
  | 3 => { icon_name := some PANEL_ICON_RUN,
           text := some "Run Application...",
           tooltip := some "Run an application by typing a command or choosing from a list",
           help_index := some "gospanel-555",
           drag_id := some "ACTION:run:NEW",
           has_invoke := true, has_setup_menu := false, has_invoke_menu := false,
           is_disabled := some (fun e => e.disableCommandLine) }
  | 4 => { icon_name := some PANEL_ICON_SEARCHTOOL,
           text := some "Search for Files...",
           tooltip := some "Locate documents and folders on this computer by name or content",
           help_index := some "gospanel-554",
           drag_id := some "ACTION:search:NEW",
           has_invoke := true, has_setup_menu := false, has_invoke_menu := false,
           is_disabled := none }
  | 5 => { icon_name := some PANEL_ICON_FORCE_QUIT,
           text := some "Force Quit",
           tooltip := some "Force a misbehaving application to quit",
           help_index := some "gospanel-563",
           drag_id := some "ACTION:force-quit:NEW",
           has_invoke := true, has_setup_menu := false, has_invoke_menu := false,
           is_disabled := some (fun e => e.disableForceQuit) }
  | 6 => { icon_name := some PANEL_ICON_REMOTE,
           text := some "Connect to Server...",
           tooltip := some "Connect to a remote computer or shared disk",
           help_index := some "caja-server-connect",
           drag_id := some "ACTION:connect-server:NEW",
           has_invoke := true, has_setup_menu := false, has_invoke_menu := false,
           is_disabled := none }
  | 7 => { icon_name := some PANEL_ICON_SHUTDOWN,
           text := some "Shut Down...",
           tooltip := some "Shut down the computer",
           help_index := some "gospanel-20",
           drag_id := some "ACTION:shutdown:NEW",
           has_invoke := true, has_setup_menu := false, has_invoke_menu := false,
           is_disabled := some panel_action_shutdown_reboot_is_disabled }
  | _ => { icon_name := none, text := none, tooltip := none,
           help_index := none, drag_id := none,
           has_invoke := false, has_setup_menu := false, has_invoke_menu := false,
           is_disabled := none }

/-- The exported query panel_action_get_is_disabled: range-checked
(g_return_val_if_fail yields FALSE out of range), then dispatch to the
table's optional is_disabled hook, FALSE when the hook is NULL. -/
def panel_action_get_is_disabled (e : Env) (type : Nat) : Bool :=
  if PANEL_ACTION_NONE < type ∧ type < PANEL_ACTION_LAST then
    match (actions type).is_disabled with
    | some f => f e
    | none => false
  else false

/-- The enablement formula for the Shutdown kind exactly as the claim and the
spec's table word it: lockdown forbids log-out AND not on a Wayland display
AND the session manager reports shutdown unavailable.  Written from the
spec's words, for comparison against the source function. -/
def shutdown_is_disabled_claimed (e : Env) : Bool :=
  e.disableLogOut && !(e.haveWayland && e.isWaylandDisplay) && !e.shutdownAvailable

/-- Split a character list at every colon, the semantics of
g_strsplit (s, ":", 0) on a non-empty string: n colons yield n+1 fields,
adjacent colons yield empty fields. -/
def splitColonChars : List Char → List (List Char)
  | [] => [[]]
  | c :: rest =>
    if c = ':' then [] :: splitColonChars rest
    else
      let r := splitColonChars rest
      (c :: r.headD []) :: r.tail

/-- The library function g_strsplit (s, ":", 0): an empty string yields an
empty vector, otherwise the colon-split fields. -/
def g_strsplit_colon (s : String) : List String :=
  if s.data = [] then []
  else (splitColonChars s.data).map (fun cs => String.mk cs)

/-- True when the character is in the C " \t\n\v\f\r" whitespace set used by
strtol. -/
def isSpaceC (c : Char) : Bool :=
  c = ' ' || c = '\t' || c = '\n' || c = '\x0b' || c = '\x0c' || c = '\r'

/-- LONG_MAX in the LP64 data model (64-bit long, 32-bit int) of the
GNU/Linux targets this panel is built for. -/
def LONG_MAX : Int := 2 ^ 63 - 1

/-- LONG_MIN in the LP64 data model. -/
def LONG_MIN : Int := -(2 ^ 63)

/-- Clamp a mathematical integer into the long range, the saturation strtol
performs on overflow (it returns LONG_MAX or LONG_MIN and sets ERANGE). -/
def clamp_long (v : Int) : Int :=
  if v > LONG_MAX then LONG_MAX
  else if v < LONG_MIN then LONG_MIN
  else v

/-- Conversion of a C long value to a 32-bit int, as gcc and clang define
the implementation-defined narrowing: two's-complement reduction modulo
2^32.  This models the implicit conversion in the assignment of the strtol
result to the int out-parameter *old_applet_idx. -/
def long_to_int (v : Int) : Int :=
  (v + 2 ^ 31) % 2 ^ 32 - 2 ^ 31

/-- The library function strtol (s, NULL, 10): skip leading whitespace, an
optional sign, then the longest run of decimal digits; an empty digit run
yields 0; a value outside the long range saturates to LONG_MAX or LONG_MIN
(LP64 model). -/
def strtol10 (s : String) : Int :=
  let cs := s.data.dropWhile isSpaceC
  let sign : Int := if cs.headD ' ' = '-' then -1 else 1
  let rest := if cs.headD ' ' = '-' ∨ cs.headD ' ' = '+' then cs.tail else cs
  let digits := rest.takeWhile Char.isDigit
  clamp_long
    (sign * (digits.foldl (fun acc c => acc * 10 + (c.toNat - 48)) 0 : Nat))

/-- Observable outcome of panel_action_button_load_from_drag: the returned
boolean (TRUE means the caller must remove the old applet), the int value
written through the old_applet_idx out-parameter (none when the pointer is
left untouched), and the kind passed to panel_action_button_create (none
when no button is created). -/
structure DragResult where
  retval : Bool
  old_applet_idx : Option Int
  created : Option Nat
deriving DecidableEq

/-- The exported panel_action_button_load_from_drag: reject unless the string
starts with "ACTION:"; split on colons; reject when fewer than three fields;
reject when the second field resolves to no kind; reject (via
g_return_val_if_fail) when the resolved kind is out of the valid non-None
range; when the third field is not the literal "NEW", write its strtol
value — narrowed from long to int by the assignment — to the out-parameter
and return TRUE; always create the new button once the checks pass. -/
def panel_action_button_load_from_drag (drag_string : String) : DragResult :=
  if "ACTION:".data.isPrefixOf drag_string.data then
    let elements := g_strsplit_colon drag_string
    match elements[1]?, elements[2]? with
    | some e1, some e2 =>
      match get_action_type_id e1 with
      | (true, type) =>
        if PANEL_ACTION_NONE < type ∧ type < PANEL_ACTION_LAST then
          if e2 = "NEW" then
            { retval := false, old_applet_idx := none, created := some type }
          else
            { retval := true,
              old_applet_idx := some (long_to_int (strtol10 e2)),
              created := some type }
        else { retval := false, old_applet_idx := none, created := none }
      | (false, _) => { retval := false, old_applet_idx := none, created := none }
    | _, _ => { retval := false, old_applet_idx := none, created := none }
  else { retval := false, old_applet_idx := none, created := none }

/-- The drag-encoding side of panel_action_button_drag_data_get: the payload
string "ACTION:%s:%d" built from the button's kind name and its applet index
(g_strdup_printf renders a NULL %s argument as "(null)"). -/
def panel_action_button_drag_data_get (type : Nat) (applet_index : Int) : String :=
  "ACTION:" ++ (get_action_type_name type).getD "(null)" ++ ":" ++ toString applet_index

/-- One UI side effect emitted by the button code toward its GTK parent
widget: icon/tooltip/accessible-name updates, sensitivity pushes, drag-source
configuration, and the dnd-enabled property notification. -/
inductive UiEvent where
  | setIconName (s : String)
  | setTooltip (s : Option String)
  | setAtkName (s : Option String)
  | setActivatable (b : Bool)
  | dragSourceSet
  | dragSourceSetIcon (s : String)
  | dragSourceUnset
  | notifyDndEnabled
deriving DecidableEq

/-- Per-instance state of a PanelActionButton: the private struct fields
(type, dnd_enabled) plus the widget-level attributes the module writes
(icon name, tooltip, accessible name, activatable flag, drag-source
configuration), and the trace of UI side effects emitted so far.  Fields the
module has never written hold none. -/
structure ButtonState where
  type : Nat
  dnd_enabled : Bool
  icon_name : Option String
  tooltip : Option String
  atk_name : Option String
  activatable : Option Bool
  drag_source : Bool
  events : List UiEvent
deriving DecidableEq

/-- The instance initializer panel_action_button_init: kind None, no applet
info, drag and drop off; no widget attribute written yet. -/
def panel_action_button_init : ButtonState :=
  { type := PANEL_ACTION_NONE, dnd_enabled := false,
    icon_name := none, tooltip := none, atk_name := none,
    activatable := none, drag_source := false, events := [] }

/-- The helper panel_action_button_update_sensitivity: when the bound kind's
is_disabled hook exists, push the negation of its result to the widget's
activatable state; otherwise do nothing. -/
def panel_action_button_update_sensitivity (e : Env) (st : ButtonState) :
    ButtonState :=
  match (actions st.type).is_disabled with
  | some f =>
    { st with activatable := some (!f e),
              events := st.events ++ [UiEvent.setActivatable (!f e)] }
  | none => st

/-- The exported panel_action_button_set_type: return unchanged on the
sentinel None (the `if (!type)` test), on an out-of-range kind
(g_return_if_fail), or on the button's current kind; otherwise store the new
kind, set the icon when the table has one, set the tooltip and the accessible
name from the table's tooltip, and re-run update_sensitivity. -/
def panel_action_button_set_type (e : Env) (st : ButtonState) (type : Nat) :
    ButtonState :=
  if type = PANEL_ACTION_NONE then st
  else if ¬(PANEL_ACTION_NONE < type ∧ type < PANEL_ACTION_LAST) then st
  else if type = st.type then st
  else
    let st1 := { st with type := type }
    let st2 :=
      match (actions type).icon_name with
      | some icon =>
        { st1 with icon_name := some icon,
                   events := st1.events ++ [UiEvent.setIconName icon] }
      | none => st1
    let tt := (actions type).tooltip
    let st3 := { st2 with tooltip := tt, atk_name := tt,
                          events := st2.events ++
                            [UiEvent.setTooltip tt, UiEvent.setAtkName tt] }
    panel_action_button_update_sensitivity e st3

/-- The exported panel_action_button_set_dnd_enabled: return unchanged while
the kind is still None ("wait until we know what type it is"); normalize the
boolean; return unchanged when the flag already has that value; otherwise
configure or unset the GTK drag source (setting the drag icon when the table
has one), store the flag, and emit the "dnd-enabled" property
notification. -/
def panel_action_button_set_dnd_enabled (st : ButtonState) (enabled : Bool) :
    ButtonState :=
  if st.type = PANEL_ACTION_NONE then st
  else if st.dnd_enabled = enabled then st
  else
    let st1 :=
      if enabled then
        let stA := { st with drag_source := true,
                             events := st.events ++ [UiEvent.dragSourceSet] }
        match (actions st.type).icon_name with
        | some icon =>
          { stA with events := stA.events ++ [UiEvent.dragSourceSetIcon icon] }
        | none => stA
      else
        { st with drag_source := false,
                  events := st.events ++ [UiEvent.dragSourceUnset] }
    { st1 with dnd_enabled := enabled,
               events := st1.events ++ [UiEvent.notifyDndEnabled] }

/-- Reachability invariant of a button's widget state relative to a fixed
environment: whenever the kind is not None it is in range, the icon, tooltip
and accessible name agree with the actions table, and when the kind has an
is_disabled hook the activatable state is the hook's negated answer. -/
def buttonConsistent (e : Env) (st : ButtonState) : Prop :=
  st.type ≠ PANEL_ACTION_NONE →
    (st.type < PANEL_ACTION_LAST ∧
     st.icon_name = (actions st.type).icon_name ∧
     st.tooltip = (actions st.type).tooltip ∧
     st.atk_name = (actions st.type).tooltip ∧
     ∀ f, (actions st.type).is_disabled = some f →
       st.activatable = some (!f e))

/-- State of the stock-icon registrar: the three static GtkIconSize variables
(0 until panel_init_stock_icons_and_items runs) and the list of
(name, pixel-size) registrations made through gtk_icon_size_register. -/
structure StockIconsState where
  panel_menu_icon_size : Nat
  panel_menu_bar_icon_size : Nat
  panel_add_to_icon_size : Nat
  registry : List (String × Int)
deriving DecidableEq

/-- The registrar's state at program start: the three static variables are
zero-initialized and nothing is registered. -/
def stockIconsStartState : StockIconsState :=
  { panel_menu_icon_size := 0, panel_menu_bar_icon_size := 0,
    panel_add_to_icon_size := 0, registry := [] }

/-- The library function gtk_icon_size_register: record the (name, size)
registration and hand back a fresh nonzero token (modelled as one past the
number of registrations so far; the claims depend only on the token being
nonzero and on what it maps to). -/
def gtk_icon_size_register (registry : List (String × Int)) (name : String)
    (size : Int) : Nat × List (String × Int) :=
  (registry.length + 1, registry ++ [(name, size)])

/-- The accessor panel_menu_icon_get_size. -/
def panel_menu_icon_get_size (st : StockIconsState) : Nat :=
  st.panel_menu_icon_size

/-- The accessor panel_menu_bar_icon_get_size. -/
def panel_menu_bar_icon_get_size (st : StockIconsState) : Nat :=
  st.panel_menu_bar_icon_size

/-- The accessor panel_add_to_icon_get_size. -/
def panel_add_to_icon_get_size (st : StockIconsState) : Nat :=
  st.panel_add_to_icon_size

/-- The registrar panel_init_stock_icons_and_items.  The built-in default
sizes PANEL_DEFAULT_MENU_ICON_SIZE, PANEL_DEFAULT_MENU_BAR_ICON_SIZE and
PANEL_ADD_TO_DEFAULT_ICON_SIZE come from a header absent from the sources, so
they are parameters here, as are the two values read from the settings store
for the "item-icon-size" and "icon-size" keys.  A stored value ≤ 0 registers
the default size under the unprefixed name; a positive value registers that
value under the underscore-prefixed name; the add-to size is always
registered with its default constant. -/
def panel_init_stock_icons_and_items
    (defaultMenu defaultMenuBar defaultAddTo : Int)
    (itemIconSize iconSize : Int) (st : StockIconsState) : StockIconsState :=
  let r1 :=
    if itemIconSize ≤ 0 then
      gtk_icon_size_register st.registry "panel-menu" defaultMenu
    else
      gtk_icon_size_register st.registry "__panel-menu" itemIconSize
  let r2 :=
    if iconSize ≤ 0 then
      gtk_icon_size_register r1.2 "panel-foobar" defaultMenuBar
    else
      gtk_icon_size_register r1.2 "__panel-foobar" iconSize
  let r3 := gtk_icon_size_register r2.2 "panel-add-to" defaultAddTo
  { panel_menu_icon_size := r1.1, panel_menu_bar_icon_size := r2.1,
    panel_add_to_icon_size := r3.1, registry := r3.2 }

/-- Environment instance refuting the claimed Shutdown enablement formula:
log-out not locked down, session manager reporting shutdown unavailable, not
on a Wayland display. -/
def envShutdownCx : Env :=
  { disableLockScreen := false, disableLogOut := false,
    disableCommandLine := false, disableForceQuit := false,
    lockedDown := false, lockScreenActionAvailable := fun _ => true,
    shutdownAvailable := false, haveWayland := true, isWaylandDisplay := false }

/-- Environment instance with no lockdown restriction, used to exercise the
set_type theorem at a concrete input. -/
def envAllFree : Env :=
  { disableLockScreen := false, disableLogOut := false,
    disableCommandLine := false, disableForceQuit := false,
    lockedDown := false, lockScreenActionAvailable := fun _ => true,
    shutdownAvailable := true, haveWayland := false, isWaylandDisplay := false }

/-! Helper lemmas about the string machinery. -/

/-- Concatenation of strings concatenates their character data. -/
theorem string_data_append (a b : String) : (a ++ b).data = a.data ++ b.data :=
  rfl

/-- A list is a Boolean prefix of itself followed by anything. -/
theorem isPrefixOf_append_self (l1 l2 : List Char) :
    l1.isPrefixOf (l1 ++ l2) = true := by
  induction l1 with
  | nil => simp [List.isPrefixOf]
  | cons a t ih => simp [List.isPrefixOf, ih]

/-- splitColonChars never returns the empty list of fields. -/
theorem splitColonChars_ne_nil (l : List Char) : splitColonChars l ≠ [] := by
  cases l with
  | nil => simp [splitColonChars]
  | cons c rest =>
    simp only [splitColonChars]
    split <;> simp

/-- A colon-free character list is a single field. -/
theorem splitColonChars_no_colon (l : List Char) (h : ':' ∈ l → False) :
    splitColonChars l = [l] := by
  induction l with
  | nil => rfl
  | cons c rest ih =>
    have hc : ¬(c = ':') := fun hc => h (by simp [hc])
    have hr : ':' ∈ rest → False := fun hm => h (by simp [hm])
    simp [splitColonChars, hc, ih hr]

/-- Splitting a colon-free field, a colon, and a remainder yields the field
followed by the split of the remainder. -/
theorem splitColonChars_append (l1 l2 : List Char) (h : ':' ∈ l1 → False) :
    splitColonChars (l1 ++ ':' :: l2) = l1 :: splitColonChars l2 := by
  induction l1 with
  | nil => simp [splitColonChars]
  | cons c t ih =>
    have hc : ¬(c = ':') := fun hc => h (by simp [hc])
    have ht : ':' ∈ t → False := fun hm => h (by simp [hm])
    simp [splitColonChars, hc, ih ht]

/-- takeWhile of a predicate false on every element is empty. -/
theorem takeWhile_nil_of_all_false {p : Char → Bool} (l : List Char)
    (h : ∀ c ∈ l, p c = false) : l.takeWhile p = [] := by
  cases l with
  | nil => rfl
  | cons c rest => simp [List.takeWhile_cons, h c (by simp)]

/-- clamp_long is the identity at 0. -/
theorem clamp_long_zero : clamp_long 0 = 0 := by decide

/-- The long-to-int narrowing is the identity at 0. -/
theorem long_to_int_zero : long_to_int 0 = 0 := by decide

/-- The long-to-int narrowing is the identity on values inside the int
range. -/
theorem long_to_int_of_fits (v : Int) (h1 : -(2 ^ 31) ≤ v) (h2 : v < 2 ^ 31) :
    long_to_int v = v := by
  unfold long_to_int
  have e1 : (2 : Int) ^ 31 = 2147483648 := by norm_num
  have e2 : (2 : Int) ^ 32 = 4294967296 := by norm_num
  rw [e1, e2]
  rw [e1] at h1 h2
  rw [Int.emod_eq_of_lt (by omega) (by omega)]
  omega

/-- strtol with base 10 yields 0 on a string containing no digit at all. -/
theorem strtol10_no_digits (s : String) (h : ∀ c ∈ s.data, c.isDigit = false) :
    strtol10 s = 0 := by
  unfold strtol10
  have hsub : ∀ c ∈ s.data.dropWhile isSpaceC, c.isDigit = false := fun c hc =>
    h c ((List.dropWhile_sublist _).subset hc)
  have htail : ∀ c ∈ (s.data.dropWhile isSpaceC).tail, c.isDigit = false :=
    fun c hc => hsub c ((List.tail_sublist _).subset hc)
  by_cases hr : (s.data.dropWhile isSpaceC).headD ' ' = '-' ∨
      (s.data.dropWhile isSpaceC).headD ' ' = '+'
  · rw [List.headD_eq_head?] at hr
    simp [hr, takeWhile_nil_of_all_false _ htail, clamp_long_zero]
  · rw [List.headD_eq_head?] at hr
    simp [hr, takeWhile_nil_of_all_false _ hsub, clamp_long_zero]

/-- A successful kind lookup yields an index inside the enum range. -/
theorem get_action_type_id_lt (name : String) (k : Nat)
    (h : get_action_type_id name = (true, k)) : k < PANEL_ACTION_LAST := by
  unfold get_action_type_id at h
  cases hfind : (List.range PANEL_ACTION_LAST).find?
      (fun i => ascii_strcasecmp_eq (panel_action_type.getD i "") name) with
  | none => rw [hfind] at h; exact absurd h (by simp)
  | some i =>
    rw [hfind] at h
    have hik : i = k := by injection h
    have : i ∈ List.range PANEL_ACTION_LAST := List.mem_of_find?_eq_some hfind
    exact hik ▸ List.mem_range.mp this

/-! Claim theorems. -/

/-- C1 (counterexample): the claimed Shutdown enablement formula — lockdown
forbids log-out AND not Wayland AND shutdown unavailable — disagrees with
panel_action_shutdown_reboot_is_disabled: with log-out permitted, a
non-Wayland display and shutdown unavailable, the code reports disabled while
the claimed conjunction is false. -/
theorem shutdown_disabled_claim_refuted :
    panel_action_shutdown_reboot_is_disabled envShutdownCx = true ∧
    shutdown_is_disabled_claimed envShutdownCx = false :=
  ⟨rfl, rfl⟩

/-- C1 (amended): panel_action_shutdown_reboot_is_disabled returns true
exactly when the lockdown policy forbids log-out, OR the process is not on a
Wayland display (in particular in a non-Wayland build) and the session
manager reports shutdown unavailable; hence with log-out locked down it
returns true on every backend. -/
theorem shutdown_is_disabled_characterization (e : Env) :
    panel_action_shutdown_reboot_is_disabled e =
      (e.disableLogOut ||
        (!(e.haveWayland && e.isWaylandDisplay) && !e.shutdownAvailable)) := by
  unfold panel_action_shutdown_reboot_is_disabled
  cases hd : e.disableLogOut <;> cases hw : e.haveWayland <;>
    cases hwd : e.isWaylandDisplay <;> simp [hd, hw, hwd]

/-- C2: drag-token encode/decode round-trip at the documented inputs:
encoding a Lock button at applet index 3 yields "ACTION:lock:3"; decoding it
yields Lock with remove-index 3 and removed = true; decoding
"ACTION:lock:NEW" yields Lock with removed = false; "ACTION:bogus:NEW" and
"NOTACTION:lock:NEW" are rejected. -/
theorem drag_token_round_trip :
    panel_action_button_drag_data_get PANEL_ACTION_LOCK 3 = "ACTION:lock:3" ∧
    panel_action_button_load_from_drag "ACTION:lock:3" =
      { retval := true, old_applet_idx := some 3,
        created := some PANEL_ACTION_LOCK } ∧
    panel_action_button_load_from_drag "ACTION:lock:NEW" =
      { retval := false, old_applet_idx := none,
        created := some PANEL_ACTION_LOCK } ∧
    panel_action_button_load_from_drag "ACTION:bogus:NEW" =
      { retval := false, old_applet_idx := none, created := none } ∧
    panel_action_button_load_from_drag "NOTACTION:lock:NEW" =
      { retval := false, old_applet_idx := none, created := none } := by
  decide

/-- C5: panel_action_button_set_type with the sentinel None, or with the
button's current kind, leaves the entire button state unchanged — including
the trace of UI side effects, so no visual update and no notification is
emitted. -/
theorem set_type_noop (e : Env) (st : ButtonState) :
    panel_action_button_set_type e st PANEL_ACTION_NONE = st ∧
    panel_action_button_set_type e st st.type = st := by
  constructor
  · simp [panel_action_button_set_type]
  · unfold panel_action_button_set_type
    by_cases h : st.type = PANEL_ACTION_NONE
    · rw [if_pos h]
    · rw [if_neg h]
      by_cases hr : PANEL_ACTION_NONE < st.type ∧ st.type < PANEL_ACTION_LAST
      · rw [if_neg (not_not_intro hr), if_pos rfl]
      · rw [if_pos hr]

/-- C6: for every kind other than Shutdown, panel_action_get_is_disabled
matches the enablement table: Lock is disabled exactly when lockdown forbids
the lock screen or the screensaver "lock" capability is unavailable; Logout,
Run and ForceQuit follow their respective lockdown flags; Search and
ConnectServer are never disabled. -/
theorem get_is_disabled_matches_table (e : Env) :
    panel_action_get_is_disabled e PANEL_ACTION_LOCK =
      (e.disableLockScreen || !e.lockScreenActionAvailable "lock") ∧
    panel_action_get_is_disabled e PANEL_ACTION_LOGOUT = e.disableLogOut ∧
    panel_action_get_is_disabled e PANEL_ACTION_RUN = e.disableCommandLine ∧
    panel_action_get_is_disabled e PANEL_ACTION_FORCE_QUIT =
      e.disableForceQuit ∧
    panel_action_get_is_disabled e PANEL_ACTION_SEARCH = false ∧
    panel_action_get_is_disabled e PANEL_ACTION_CONNECT_SERVER = false := by
  refine ⟨?_, ?_, ?_, ?_, ?_, ?_⟩ <;>
    simp [panel_action_get_is_disabled, actions, PANEL_ACTION_NONE,
          PANEL_ACTION_LAST, PANEL_ACTION_LOCK, PANEL_ACTION_LOGOUT,
          PANEL_ACTION_RUN, PANEL_ACTION_FORCE_QUIT, PANEL_ACTION_SEARCH,
          PANEL_ACTION_CONNECT_SERVER, panel_action_lock_is_disabled,
          screensaver_enabled]

/-- C7: the icon-size registrar: before panel_init_stock_icons_and_items
runs, each accessor returns the zero token; after it runs, the menu-item and
menu-bar tokens map to the default size under the unprefixed name when the
stored value is ≤ 0, and to the stored value under the underscore-prefixed
name when it is positive, the add-to token always maps to its fixed default
constant, and all three tokens are nonzero. -/
theorem stock_icons_registration (dm dmb dat item icon : Int) :
    panel_menu_icon_get_size stockIconsStartState = 0 ∧
    panel_menu_bar_icon_get_size stockIconsStartState = 0 ∧
    panel_add_to_icon_get_size stockIconsStartState = 0 ∧
    (panel_init_stock_icons_and_items dm dmb dat item icon
        stockIconsStartState).registry.get?
      (panel_menu_icon_get_size
        (panel_init_stock_icons_and_items dm dmb dat item icon
          stockIconsStartState) - 1) =
      some (if item ≤ 0 then ("panel-menu", dm) else ("__panel-menu", item)) ∧
    (panel_init_stock_icons_and_items dm dmb dat item icon
        stockIconsStartState).registry.get?
      (panel_menu_bar_icon_get_size
        (panel_init_stock_icons_and_items dm dmb dat item icon
          stockIconsStartState) - 1) =
      some (if icon ≤ 0 then ("panel-foobar", dmb)
            else ("__panel-foobar", icon)) ∧
    (panel_init_stock_icons_and_items dm dmb dat item icon
        stockIconsStartState).registry.get?
      (panel_add_to_icon_get_size
        (panel_init_stock_icons_and_items dm dmb dat item icon
          stockIconsStartState) - 1) =
      some ("panel-add-to", dat) ∧
    panel_menu_icon_get_size
      (panel_init_stock_icons_and_items dm dmb dat item icon
        stockIconsStartState) ≠ 0 ∧
    panel_menu_bar_icon_get_size
      (panel_init_stock_icons_and_items dm dmb dat item icon
        stockIconsStartState) ≠ 0 ∧
    panel_add_to_icon_get_size
      (panel_init_stock_icons_and_items dm dmb dat item icon
        stockIconsStartState) ≠ 0 := by
  refine ⟨rfl, rfl, rfl, ?_, ?_, ?_, ?_, ?_, ?_⟩ <;>
    by_cases h1 : item ≤ 0 <;> by_cases h2 : icon ≤ 0 <;>
      simp [panel_init_stock_icons_and_items, gtk_icon_size_register,
            stockIconsStartState, panel_menu_icon_get_size,
            panel_menu_bar_icon_get_size, panel_add_to_icon_get_size, h1, h2]

/-- C9: a drag string naming the sentinel kind is rejected: the
case-insensitive lookup of "none" (in any letter case) succeeds with id 0,
but load_from_drag fails the valid-range check, returns FALSE and creates no
button. -/
theorem load_from_drag_rejects_none_kind :
    get_action_type_id "none" = (true, 0) ∧
    get_action_type_id "NONE" = (true, 0) ∧
    panel_action_button_load_from_drag "ACTION:none:NEW" =
      { retval := false, old_applet_idx := none, created := none } ∧
    panel_action_button_load_from_drag "ACTION:NoNe:NEW" =
      { retval := false, old_applet_idx := none, created := none } := by
  decide

/-- C10: while a button is unbound (kind None, the state established by
panel_action_button_init together with dnd_enabled = false),
panel_action_button_set_dnd_enabled is a no-op for every boolean input: the
whole state, including the drag-source configuration and the trace of
property notifications, is unchanged. -/
theorem set_dnd_enabled_noop_when_unbound :
    panel_action_button_init.type = PANEL_ACTION_NONE ∧
    panel_action_button_init.dnd_enabled = false ∧
    ∀ (st : ButtonState) (b : Bool), st.type = PANEL_ACTION_NONE →
      panel_action_button_set_dnd_enabled st b = st := by
  refine ⟨rfl, rfl, ?_⟩
  intro st b h
  simp [panel_action_button_set_dnd_enabled, h]

/-- C10 (witness): the no-op theorem applied at the freshly initialized
button with input true. -/
theorem set_dnd_enabled_noop_when_unbound_witness :
    panel_action_button_set_dnd_enabled panel_action_button_init true =
      panel_action_button_init :=
  set_dnd_enabled_noop_when_unbound.2.2 panel_action_button_init true rfl

/-- C3: every malformed drag string — wrong prefix, fewer than three
colon-separated fields, or a second field resolving to no kind under the
case-insensitive lookup — makes panel_action_button_load_from_drag return
FALSE with no button created and the old-applet-index out-parameter left
unwritten. -/
theorem load_from_drag_rejects_malformed (s : String)
    (h : "ACTION:".data.isPrefixOf s.data = false ∨
         (g_strsplit_colon s).length < 3 ∨
         (get_action_type_id ((g_strsplit_colon s).getD 1 "")).1 = false) :
    panel_action_button_load_from_drag s =
      { retval := false, old_applet_idx := none, created := none } := by
  unfold panel_action_button_load_from_drag
  cases hp : ("ACTION:".data.isPrefixOf s.data) with
  | false => simp [hp]
  | true =>
    rcases h with h | h | h
    · rw [hp] at h; exact absurd h (by simp)
    · have h2 : (g_strsplit_colon s)[2]? = none :=
        List.getElem?_eq_none (by omega)
      cases h1 : (g_strsplit_colon s)[1]? <;> simp [hp, h1, h2]
    · cases h1 : (g_strsplit_colon s)[1]? with
      | none =>
        have h2 : (g_strsplit_colon s)[2]? = none :=
          List.getElem?_eq_none
            (le_trans (List.getElem?_eq_none_iff.mp h1) (by omega))
        simp [hp, h1, h2]
      | some e1 =>
        have he1 : (g_strsplit_colon s).getD 1 "" = e1 := by
          rw [List.getD_eq_getD_get?, List.get?_eq_getElem?, h1]; rfl
        rw [he1] at h
        cases hg : get_action_type_id e1 with
        | mk b k =>
          rw [hg] at h
          simp only at h
          subst h
          cases h2 : (g_strsplit_colon s)[2]? <;> simp [hp, h1, h2, hg]

/-- C3 (witness): the rejection theorem applied to a concrete string with
the wrong prefix. -/
theorem load_from_drag_rejects_malformed_witness :
    panel_action_button_load_from_drag "XACTION:lock:NEW" =
      { retval := false, old_applet_idx := none, created := none } :=
  load_from_drag_rejects_malformed "XACTION:lock:NEW" (Or.inl (by decide))

/-- C4: for every valid kind k other than None, set_type on a reachable
(consistent) button state sets the kind to k and makes the icon name, the
tooltip and the accessibility label equal the actions table's entries for k,
and re-evaluates enablement: whenever k carries an is_disabled hook, the
widget's activatable state becomes the hook's negated answer. -/
theorem set_type_updates_from_table (e : Env) (st : ButtonState) (k : Nat)
    (hcons : buttonConsistent e st)
    (hk : PANEL_ACTION_NONE < k ∧ k < PANEL_ACTION_LAST) :
    (panel_action_button_set_type e st k).type = k ∧
    (panel_action_button_set_type e st k).icon_name =
      (actions k).icon_name ∧
    (panel_action_button_set_type e st k).tooltip = (actions k).tooltip ∧
    (panel_action_button_set_type e st k).atk_name = (actions k).tooltip ∧
    (∀ f, (actions k).is_disabled = some f →
      (panel_action_button_set_type e st k).activatable = some (!f e)) := by
  obtain ⟨hk0, hk8⟩ := hk
  have hne : ¬(k = PANEL_ACTION_NONE) := by
    simp only [PANEL_ACTION_NONE] at hk0 ⊢; omega
  by_cases heq : k = st.type
  · have hst := hcons (heq ▸ hne)
    have hrun : panel_action_button_set_type e st k = st := by
      unfold panel_action_button_set_type
      rw [if_neg hne, if_neg (not_not_intro ⟨hk0, hk8⟩), if_pos heq]
    rw [hrun, heq]
    exact ⟨rfl, hst.2.1, hst.2.2.1, hst.2.2.2.1, hst.2.2.2.2⟩
  · simp only [PANEL_ACTION_NONE, PANEL_ACTION_LAST] at hk0 hk8
    interval_cases k <;>
      simp [panel_action_button_set_type,
            panel_action_button_update_sensitivity, actions,
            PANEL_ACTION_NONE, PANEL_ACTION_LAST, heq]

/-- C4 (witness): binding a freshly initialized button to Lock in an
unrestricted environment yields the table's Lock metadata and an activatable
widget. -/
theorem set_type_updates_from_table_witness :
    (panel_action_button_set_type envAllFree panel_action_button_init
      PANEL_ACTION_LOCK).type = PANEL_ACTION_LOCK ∧
    (panel_action_button_set_type envAllFree panel_action_button_init
      PANEL_ACTION_LOCK).icon_name = (actions PANEL_ACTION_LOCK).icon_name ∧
    (panel_action_button_set_type envAllFree panel_action_button_init
      PANEL_ACTION_LOCK).tooltip = (actions PANEL_ACTION_LOCK).tooltip ∧
    (panel_action_button_set_type envAllFree panel_action_button_init
      PANEL_ACTION_LOCK).atk_name = (actions PANEL_ACTION_LOCK).tooltip ∧
    (∀ f, (actions PANEL_ACTION_LOCK).is_disabled = some f →
      (panel_action_button_set_type envAllFree panel_action_button_init
        PANEL_ACTION_LOCK).activatable = some (!f envAllFree)) :=
  set_type_updates_from_table envAllFree panel_action_button_init
    PANEL_ACTION_LOCK (fun hne => absurd rfl hne) ⟨by decide, by decide⟩

/-- C8 (counterexample): the original claim asserts that the out-parameter
receives the base-10 strtol value of the third field; but the store narrows
the long to an int, so decoding "ACTION:lock:4294967296" writes 0 — the
two's-complement reduction of 2^32 — while strtol itself yields
4294967296. -/
theorem load_from_drag_index_narrowing_refuted :
    panel_action_button_load_from_drag "ACTION:lock:4294967296" =
      { retval := true, old_applet_idx := some 0,
        created := some PANEL_ACTION_LOCK } ∧
    strtol10 "4294967296" = 4294967296 ∧
    (0 : Int) ≠ 4294967296 := by decide

/-- C8 (amended): every drag string "ACTION:name:f..." whose name resolves
to a valid non-None kind and whose third field f is any string other than
the literal "NEW" — with arbitrary extra trailing colon-separated fields —
is accepted: load_from_drag returns TRUE, writes the base-10 strtol value of
f converted to int (two's-complement narrowing; this equals the strtol value
whenever it lies in the int range, and is 0 when f contains no digit at all)
to the old-applet-index out-parameter, and creates a button of that kind. -/
theorem load_from_drag_accepts_index_field (name f tail : String) (k : Nat)
    (hname : get_action_type_id name = (true, k))
    (hk : k ≠ PANEL_ACTION_NONE)
    (hnc : ':' ∈ name.data → False)
    (hfc : ':' ∈ f.data → False)
    (hf : f ≠ "NEW")
    (htail : tail.data = [] ∨ ∃ t, tail.data = ':' :: t) :
    panel_action_button_load_from_drag
        ("ACTION:" ++ name ++ ":" ++ f ++ tail) =
      { retval := true, old_applet_idx := some (long_to_int (strtol10 f)),
        created := some k } ∧
    ((∀ c ∈ f.data, c.isDigit = false) → long_to_int (strtol10 f) = 0) ∧
    ((-(2 ^ 31) ≤ strtol10 f ∧ strtol10 f < 2 ^ 31) →
      long_to_int (strtol10 f) = strtol10 f) := by
  refine ⟨?_,
    fun h => by rw [strtol10_no_digits f h]; exact long_to_int_zero,
    fun h => long_to_int_of_fits _ h.1 h.2⟩
  have hk8 : k < PANEL_ACTION_LAST := get_action_type_id_lt name k hname
  have hdata : ("ACTION:" ++ name ++ ":" ++ f ++ tail).data =
      "ACTION:".data ++ (name.data ++ ':' :: (f.data ++ tail.data)) := by
    simp [string_data_append, List.append_assoc]
  have hcolon : ("ACTION:" ++ name ++ ":" ++ f ++ tail).data =
      "ACTION".data ++ ':' :: (name.data ++ ':' :: (f.data ++ tail.data)) := by
    rw [hdata]; rfl
  obtain ⟨r, hr⟩ : ∃ r, splitColonChars (f.data ++ tail.data) = f.data :: r := by
    rcases htail with ht | ⟨t, ht⟩
    · exact ⟨[], by rw [ht, List.append_nil, splitColonChars_no_colon _ hfc]⟩
    · exact ⟨splitColonChars t, by rw [ht, splitColonChars_append _ _ hfc]⟩
  have hsplit : splitColonChars ("ACTION:" ++ name ++ ":" ++ f ++ tail).data =
      "ACTION".data :: name.data :: f.data :: r := by
    rw [hcolon, splitColonChars_append _ _ (by decide),
        splitColonChars_append _ _ hnc, hr]
  have hnil : ¬(("ACTION:" ++ name ++ ":" ++ f ++ tail).data = []) := by
    rw [hcolon]; simp
  have helems : g_strsplit_colon ("ACTION:" ++ name ++ ":" ++ f ++ tail) =
      "ACTION" :: name :: f :: r.map (fun cs => String.mk cs) := by
    unfold g_strsplit_colon
    rw [if_neg hnil, hsplit]
    rfl
  have hkpos : PANEL_ACTION_NONE < k := by
    simp only [PANEL_ACTION_NONE] at hk ⊢; omega
  unfold panel_action_button_load_from_drag
  rw [if_pos (by rw [hdata]; exact isPrefixOf_append_self _ _), helems]
  simp [hname, hf, hkpos, hk8]

/-- C8 (witness): the acceptance theorem at the concrete token
"ACTION:lock:x7:extra", whose non-numeric third field parses to index 0. -/
theorem load_from_drag_accepts_index_field_witness :
    panel_action_button_load_from_drag
        ("ACTION:" ++ "lock" ++ ":" ++ "x7" ++ ":extra") =
      { retval := true, old_applet_idx := some (long_to_int (strtol10 "x7")),
        created := some PANEL_ACTION_LOCK } ∧
    ((∀ c ∈ "x7".data, c.isDigit = false) →
      long_to_int (strtol10 "x7") = 0) ∧
    ((-(2 ^ 31) ≤ strtol10 "x7" ∧ strtol10 "x7" < 2 ^ 31) →
      long_to_int (strtol10 "x7") = strtol10 "x7") :=
  load_from_drag_accepts_index_field "lock" "x7" ":extra" PANEL_ACTION_LOCK
    (by decide) (by decide) (by decide) (by decide) (by decide)
    (Or.inr ⟨"extra".data, rfl⟩)

end MatePanel
